import Mathlib

/-!
# Verification of the powdertime core pipeline

Shallow embedding of the `powdertime` snow-alert core:

* `src/powdertime/weather.py` — `WeatherForecast` (daily record),
* `src/powdertime/resorts.py` — `SkiResort`, the static `SKI_RESORTS`
  catalog, `ResortFinder.find_nearby_resorts`,
  `ResortFinder.get_resorts_from_config`,
  `ResortFinder._find_resort_by_name`,
* `src/powdertime/analyzer.py` — `SnowEvent`, `SnowAnalyzer.analyze_forecast`,
  `SnowAnalyzer.find_significant_events`.

Python floats are embedded as `ℚ` (all the verified properties are order
and field-arithmetic facts, independent of rounding), calendar dates as
`Nat`, Python `None`-able values as `Option`, raised `ValueError`s as an
explicit error type threaded through `Except`, and Python's stable
`list.sort` as `List.mergeSort`. Dictionaries keep their Python insertion
order and are embedded as association lists.
-/

/-- Daily weather record (`weather.py`, class `WeatherForecast`):
a calendar date, the forecast snowfall in inches, and an optional
max temperature.  The `conditions` string is never consulted by the
core and is omitted. -/
structure WeatherForecast where
  date : Nat
  snowfall_inches : ℚ
  temperature_f : Option ℚ := none
deriving DecidableEq, Repr

/-- A ski resort (`resorts.py`, class `SkiResort`): name, coordinates in
degrees, optional elevation (feet) and optional state code. -/
structure SkiResort where
  name : String
  latitude : ℚ
  longitude : ℚ
  elevation : Option Int := none
  state : Option String := none
deriving DecidableEq, Repr

/-- A significant snowfall event (`analyzer.py`, class `SnowEvent`):
the resort, the retained forecast days, the aggregate totals and the
derived start/end dates. -/
structure SnowEvent where
  resort : SkiResort
  forecasts : List WeatherForecast
  total_snowfall : ℚ
  max_daily_snowfall : ℚ
  start_date : Option Nat
  end_date : Option Nat
deriving DecidableEq, Repr

/-- `SnowEvent.__init__` (`analyzer.py` lines 15–22): stores the four
fields and derives `start_date`/`end_date` from the first/last retained
forecast (`None` when the retained list is empty). -/
def SnowEvent.make (resort : SkiResort) (forecasts : List WeatherForecast)
    (total_snowfall max_daily_snowfall : ℚ) : SnowEvent :=
  { resort := resort
    forecasts := forecasts
    total_snowfall := total_snowfall
    max_daily_snowfall := max_daily_snowfall
    start_date := forecasts.head?.map (·.date)
    end_date := forecasts.getLast?.map (·.date) }

/-- Python's `max(iterable, default=0)`: the maximum of the list, `0` on
the empty list. -/
def pymax (l : List ℚ) : ℚ :=
  match l with
  | [] => 0
  | x :: xs => xs.foldl max x

/-- `SnowAnalyzer.analyze_forecast` (`analyzer.py` lines 58–91), with the
analyzer's `threshold_inches` passed explicitly.  Empty forecast ⇒ `None`;
total below threshold ⇒ `None`; otherwise build the event from the days
with positive snowfall. -/
def analyze_forecast (threshold_inches : ℚ) (resort : SkiResort)
    (forecasts : List WeatherForecast) : Option SnowEvent :=
  if forecasts.isEmpty then none
  else
    let total_snowfall := (forecasts.map (·.snowfall_inches)).sum
    if total_snowfall < threshold_inches then none
    else
      let max_daily := pymax (forecasts.map (·.snowfall_inches))
      let snow_days := forecasts.filter (fun f => decide (0 < f.snowfall_inches))
      some (SnowEvent.make resort snow_days total_snowfall max_daily)

/-- `SnowAnalyzer.find_significant_events` (`analyzer.py` lines 93–113).
The input dictionary is embedded as an association list in insertion
order; `list.sort(key=…, reverse=True)` is Python's stable sort and is
embedded as a stable `mergeSort` whose order puts larger totals first and
keeps ties in input order. -/
def find_significant_events (threshold_inches : ℚ)
    (resort_forecasts : List (SkiResort × List WeatherForecast)) : List SnowEvent :=
  let events := resort_forecasts.filterMap
    (fun rf => analyze_forecast threshold_inches rf.1 rf.2)
  events.mergeSort (fun a b => decide (b.total_snowfall ≤ a.total_snowfall))

/-! ## Helper lemmas about the analyzer -/

/-- `pymax` of an all-zero list is `0`. -/
theorem pymax_eq_zero (l : List ℚ) (h : ∀ x ∈ l, x = 0) : pymax l = 0 := by
  have aux : ∀ xs : List ℚ, (∀ x ∈ xs, x = 0) → xs.foldl max (0 : ℚ) = 0 := by
    intro xs
    induction xs with
    | nil => intro _; rfl
    | cons y ys ih =>
      intro hy
      have h0 : y = 0 := hy y (List.mem_cons_self _ _)
      have : max (0 : ℚ) y = 0 := by simp [h0]
      simpa [List.foldl, this] using ih (fun x hx => hy x (List.mem_cons_of_mem _ hx))
  match l with
  | [] => rfl
  | x :: xs =>
    have hx : x = 0 := h x (List.mem_cons_self _ _)
    show xs.foldl max x = 0
    rw [hx]
    exact aux xs (fun y hy => h y (List.mem_cons_of_mem _ hy))

/-- Shape of a successful analysis: the returned event is built by
`SnowEvent.make` from the positive-snowfall days, the whole-window sum
and the whole-window maximum. -/
theorem analyze_forecast_eq_some (t : ℚ) (r : SkiResort)
    (fs : List WeatherForecast) (e : SnowEvent)
    (h : analyze_forecast t r fs = some e) :
    e = SnowEvent.make r (fs.filter (fun f => decide (0 < f.snowfall_inches)))
          ((fs.map (·.snowfall_inches)).sum)
          (pymax (fs.map (·.snowfall_inches))) := by
  unfold analyze_forecast at h
  dsimp only [] at h
  split at h
  · exact absurd h (by simp)
  · split at h
    · exact absurd h (by simp)
    · exact (Option.some.inj h).symm

/-! ## C1: absent iff total below threshold -/

/-- C1: for every non-empty forecast sequence and every threshold,
`analyze_forecast` returns `none` iff the snowfall sum is strictly below
the threshold; in particular a total exactly at the threshold yields an
event. -/
theorem analyze_forecast_none_iff (t : ℚ) (r : SkiResort)
    (fs : List WeatherForecast) (h : fs ≠ []) :
    analyze_forecast t r fs = none ↔ (fs.map (·.snowfall_inches)).sum < t := by
  have hne : fs.isEmpty = false := List.isEmpty_eq_false.mpr h
  by_cases hlt : (fs.map (·.snowfall_inches)).sum < t
  · simp [analyze_forecast, hne, hlt]
  · simp [analyze_forecast, hne, hlt]

def tR : SkiResort := { name := "T", latitude := 0, longitude := 0 }

/-- C1 witness: below threshold gives `none`, exactly-at-threshold does
not, on concrete inputs. -/
theorem analyze_forecast_none_iff_witness :
    analyze_forecast 6 tR [⟨0, 3, none⟩] = none ∧
      analyze_forecast 6 tR [⟨0, 6, none⟩] ≠ none :=
  ⟨(analyze_forecast_none_iff 6 tR [⟨0, 3, none⟩] (by simp)).mpr (by norm_num),
   fun hc =>
    absurd ((analyze_forecast_none_iff 6 tR [⟨0, 6, none⟩] (by simp)).mp hc)
      (by norm_num)⟩

/-! ## C2: the retained forecast list -/

/-- C2 counterexample: the retained list is *not* always a strict subset
of the input.  When every day has positive snowfall the retained list
equals the whole input, so the claim as stated (retained ⊊ input) fails
at threshold `6` on the two-day forecast `[3, 5]`. -/
theorem analyze_forecast_retained_strict_cex :
    ¬ ∀ (t : ℚ) (r : SkiResort) (fs : List WeatherForecast) (e : SnowEvent),
        analyze_forecast t r fs = some e →
          e.forecasts.Sublist fs ∧ e.forecasts ≠ fs := by
  intro hclaim
  have h := hclaim 6 tR [⟨0, 3, none⟩, ⟨1, 5, none⟩]
      (SnowEvent.make tR [⟨0, 3, none⟩, ⟨1, 5, none⟩] 8 5)
      (by norm_num [analyze_forecast, SnowEvent.make, pymax])
  exact h.2 rfl

/-- C2 (amended): for every event returned by `analyze_forecast`, the
retained forecast list is exactly the input entries with positive
snowfall in original order — a sublist of the input (equal to it when
every day has snow), of length at most the input length. -/
theorem analyze_forecast_retained (t : ℚ) (r : SkiResort)
    (fs : List WeatherForecast) (e : SnowEvent)
    (h : analyze_forecast t r fs = some e) :
    e.forecasts = fs.filter (fun f => decide (0 < f.snowfall_inches)) ∧
      e.forecasts.Sublist fs ∧ e.forecasts.length ≤ fs.length := by
  have he := analyze_forecast_eq_some t r fs e h
  subst he
  exact ⟨rfl, List.filter_sublist fs, List.length_filter_le _ fs⟩

/-- C2 witness: on the forecast `[3, 5, 0]` with threshold `6` the
retained list is the filter `[3, 5]`, a sublist of length `2 ≤ 3`. -/
theorem analyze_forecast_retained_witness :
    (SnowEvent.make tR [⟨0, 3, none⟩, ⟨1, 5, none⟩] 8 5).forecasts =
        ([⟨0, 3, none⟩, ⟨1, 5, none⟩, ⟨2, 0, none⟩] : List WeatherForecast).filter
          (fun f => decide (0 < f.snowfall_inches)) ∧
      (SnowEvent.make tR [⟨0, 3, none⟩, ⟨1, 5, none⟩] 8 5).forecasts.Sublist
        ([⟨0, 3, none⟩, ⟨1, 5, none⟩, ⟨2, 0, none⟩] : List WeatherForecast) ∧
      (SnowEvent.make tR [⟨0, 3, none⟩, ⟨1, 5, none⟩] 8 5).forecasts.length ≤
        ([⟨0, 3, none⟩, ⟨1, 5, none⟩, ⟨2, 0, none⟩] : List WeatherForecast).length :=
  analyze_forecast_retained 6 tR [⟨0, 3, none⟩, ⟨1, 5, none⟩, ⟨2, 0, none⟩]
    (SnowEvent.make tR [⟨0, 3, none⟩, ⟨1, 5, none⟩] 8 5)
    (by norm_num [analyze_forecast, SnowEvent.make, pymax])

/-! ## C3: event totals range over the whole window -/

/-- C3: for every event returned by `analyze_forecast`, `total_snowfall`
is the sum of snowfall over the entire original forecast window and
`max_daily_snowfall` is the maximum single-day snowfall over the entire
window (zero-snow days included in both aggregates). -/
theorem analyze_forecast_totals (t : ℚ) (r : SkiResort)
    (fs : List WeatherForecast) (e : SnowEvent)
    (h : analyze_forecast t r fs = some e) :
    e.total_snowfall = (fs.map (·.snowfall_inches)).sum ∧
      e.max_daily_snowfall = pymax (fs.map (·.snowfall_inches)) := by
  have he := analyze_forecast_eq_some t r fs e h
  subst he
  exact ⟨rfl, rfl⟩

/-- C3 witness: forecasts `[3, 5, 2, 0]` inches with threshold `6` yield
an event with total `10`, max daily `5`, and `3` retained days. -/
theorem analyze_forecast_totals_witness :
    (∃ e, analyze_forecast 6 tR
        [⟨0, 3, none⟩, ⟨1, 5, none⟩, ⟨2, 2, none⟩, ⟨3, 0, none⟩] = some e ∧
      e.total_snowfall = 10 ∧ e.max_daily_snowfall = 5 ∧ e.forecasts.length = 3) := by
  refine ⟨SnowEvent.make tR [⟨0, 3, none⟩, ⟨1, 5, none⟩, ⟨2, 2, none⟩] 10 5, ?_, ?_⟩
  · norm_num [analyze_forecast, SnowEvent.make, pymax]
  · have h := analyze_forecast_totals 6 tR
      [⟨0, 3, none⟩, ⟨1, 5, none⟩, ⟨2, 2, none⟩, ⟨3, 0, none⟩]
      (SnowEvent.make tR [⟨0, 3, none⟩, ⟨1, 5, none⟩, ⟨2, 2, none⟩] 10 5)
      (by norm_num [analyze_forecast, SnowEvent.make, pymax])
    refine ⟨h.1.trans (by norm_num), h.2.trans (by norm_num [pymax]), rfl⟩

/-! ## C8: the degenerate all-zero event -/

/-- C8: when every day has zero snowfall but the total still meets the
threshold (possible only for threshold ≤ 0), `analyze_forecast` returns
an event with an empty retained list, absent start/end dates and zero
max daily snowfall — it does not crash or return `none`. -/
theorem analyze_forecast_degenerate (t : ℚ) (r : SkiResort)
    (fs : List WeatherForecast) (hne : fs ≠ [])
    (hz : ∀ f ∈ fs, f.snowfall_inches = 0) (ht : t ≤ 0) :
    ∃ e, analyze_forecast t r fs = some e ∧ e.forecasts = [] ∧
      e.start_date = none ∧ e.end_date = none ∧ e.max_daily_snowfall = 0 := by
  have hsum : (fs.map (·.snowfall_inches)).sum = 0 :=
    List.sum_eq_zero (by
      intro x hx
      obtain ⟨f, hf, rfl⟩ := List.mem_map.mp hx
      exact hz f hf)
  have hmax : pymax (fs.map (·.snowfall_inches)) = 0 :=
    pymax_eq_zero _ (by
      intro x hx
      obtain ⟨f, hf, rfl⟩ := List.mem_map.mp hx
      exact hz f hf)
  have hfilter : fs.filter (fun f => decide (0 < f.snowfall_inches)) = [] := by
    rw [List.filter_eq_nil_iff]
    intro f hf
    simp [hz f hf]
  have hne' : fs.isEmpty = false := List.isEmpty_eq_false.mpr hne
  have hnlt : ¬ (fs.map (·.snowfall_inches)).sum < t := by
    rw [hsum]
    exact not_lt.mpr ht
  refine ⟨SnowEvent.make r [] ((fs.map (fun f => f.snowfall_inches)).sum)
      (pymax (fs.map (fun f => f.snowfall_inches))), ?_, ?_, ?_, ?_, ?_⟩
  · unfold analyze_forecast
    rw [hne']
    rw [if_neg (by simp)]
    dsimp only []
    rw [if_neg hnlt, hfilter]
  · rfl
  · rfl
  · rfl
  · exact hmax

/-- C8 witness: a one-day all-zero forecast with threshold `0` yields an
event with empty retained list, absent dates and zero max daily. -/
theorem analyze_forecast_degenerate_witness :
    ∃ e, analyze_forecast 0 tR [⟨0, 0, none⟩] = some e ∧ e.forecasts = [] ∧
      e.start_date = none ∧ e.end_date = none ∧ e.max_daily_snowfall = 0 :=
  analyze_forecast_degenerate 0 tR [⟨0, 0, none⟩] (by simp)
    (by intro f hf; simp at hf; rw [hf]) le_rfl

/-! ## Stable sorting: shared machinery for `find_nearby_resorts` and
`find_significant_events` (both embed Python's stable `list.sort` as
`List.mergeSort`) -/

/-- Stability of the embedded sort, phrased on tie classes: filtering the
sorted list by any predicate on which the order is reflexive-true (a tie
class of the sort key) gives the same list as filtering the input, i.e.
tied elements keep their input order. -/
theorem filter_mergeSort_of_ties {α : Type} (le : α → α → Bool)
    (htrans : ∀ a b c, le a b → le b c → le a c)
    (htotal : ∀ a b, le a b || le b a)
    (l : List α) (p : α → Bool)
    (hp : ∀ a b, p a = true → p b = true → le a b = true) :
    (l.mergeSort le).filter p = l.filter p := by
  have hpair : (l.filter p).Pairwise (fun a b => le a b = true) :=
    List.pairwise_of_forall_mem_list (fun a ha b hb =>
      hp a b (List.mem_filter.mp ha).2 (List.mem_filter.mp hb).2)
  have hsub : (l.filter p).Sublist (l.mergeSort le) :=
    List.sublist_mergeSort htrans htotal hpair (List.filter_sublist l)
  have hperm : ((l.mergeSort le).filter p).Perm (l.filter p) :=
    (List.mergeSort_perm l le).filter p
  have hidem : (l.filter p).filter p = l.filter p :=
    List.filter_eq_self.mpr (fun a ha => (List.mem_filter.mp ha).2)
  have hsub2 : (l.filter p).Sublist ((l.mergeSort le).filter p) := by
    have h1 := hsub.filter p
    rwa [hidem] at h1
  exact (hsub2.eq_of_length hperm.length_eq.symm).symm

/-! ## C5: ranking of significant events -/

/-- C5: `find_significant_events` returns exactly the non-absent results
of `analyze_forecast` applied to each entry of the input mapping (taken
in insertion order), sorted descending by `total_snowfall`; ties on equal
totals keep the input mapping's insertion order (stability, stated via
tie-class filters). -/
theorem find_significant_events_spec (t : ℚ)
    (rf : List (SkiResort × List WeatherForecast)) :
    (find_significant_events t rf).Perm
        (rf.filterMap (fun p => analyze_forecast t p.1 p.2)) ∧
      (find_significant_events t rf).Pairwise
        (fun a b => b.total_snowfall ≤ a.total_snowfall) ∧
      ∀ q : ℚ,
        (find_significant_events t rf).filter
            (fun e => decide (e.total_snowfall = q)) =
          (rf.filterMap (fun p => analyze_forecast t p.1 p.2)).filter
            (fun e => decide (e.total_snowfall = q)) := by
  have htrans : ∀ a b c : SnowEvent,
      decide (b.total_snowfall ≤ a.total_snowfall) →
      decide (c.total_snowfall ≤ b.total_snowfall) →
      decide (c.total_snowfall ≤ a.total_snowfall) := by
    intro a b c hab hbc
    exact decide_eq_true ((of_decide_eq_true hbc).trans (of_decide_eq_true hab))
  have htotal : ∀ a b : SnowEvent,
      decide (b.total_snowfall ≤ a.total_snowfall) ||
        decide (a.total_snowfall ≤ b.total_snowfall) := by
    intro a b
    rcases le_total b.total_snowfall a.total_snowfall with h | h <;> simp [h]
  unfold find_significant_events
  dsimp only []
  refine ⟨List.mergeSort_perm _ _, ?_, ?_⟩
  · exact (List.sorted_mergeSort htrans htotal _).imp (fun h => of_decide_eq_true h)
  · intro q
    apply filter_mergeSort_of_ties _ htrans htotal
    intro a b ha hb
    have ha' : a.total_snowfall = q := of_decide_eq_true ha
    have hb' : b.total_snowfall = q := of_decide_eq_true hb
    exact decide_eq_true (le_of_eq (hb'.trans ha'.symm))

/-! ## The static resort catalog (`resorts.py` lines 32–97) -/

/-- The catalog of major US ski resorts, in declaration order. -/
def SKI_RESORTS : List SkiResort := [
  ⟨"Vail", 39.6403, -106.3742, some 8120, some "CO"⟩,
  ⟨"Breckenridge", 39.4817, -106.0384, some 9600, some "CO"⟩,
  ⟨"Keystone", 39.6042, -105.9347, some 9280, some "CO"⟩,
  ⟨"Aspen Mountain", 39.1911, -106.8175, some 7945, some "CO"⟩,
  ⟨"Steamboat", 40.4572, -106.8047, some 6900, some "CO"⟩,
  ⟨"Winter Park", 39.8868, -105.7625, some 9000, some "CO"⟩,
  ⟨"Copper Mountain", 39.5019, -106.1503, some 9712, some "CO"⟩,
  ⟨"Arapahoe Basin", 39.6425, -105.8719, some 10780, some "CO"⟩,
  ⟨"Loveland", 39.6800, -105.8978, some 10800, some "CO"⟩,
  ⟨"Telluride", 37.9375, -107.8123, some 8725, some "CO"⟩,
  ⟨"Park City", 40.6514, -111.5079, some 6900, some "UT"⟩,
  ⟨"Alta", 40.5885, -111.6381, some 8530, some "UT"⟩,
  ⟨"Snowbird", 40.5833, -111.6572, some 7760, some "UT"⟩,
  ⟨"Deer Valley", 40.6374, -111.4783, some 6570, some "UT"⟩,
  ⟨"Brighton", 40.5981, -111.5831, some 8755, some "UT"⟩,
  ⟨"Solitude", 40.6199, -111.5916, some 7988, some "UT"⟩,
  ⟨"Snowbasin", 41.2161, -111.8567, some 6400, some "UT"⟩,
  ⟨"Jackson Hole", 43.5875, -110.8278, some 6311, some "WY"⟩,
  ⟨"Mammoth Mountain", 37.6308, -119.0326, some 7953, some "CA"⟩,
  ⟨"Palisades Tahoe", 39.1970, -120.2356, some 6200, some "CA"⟩,
  ⟨"Heavenly", 38.9350, -119.9403, some 6565, some "CA"⟩,
  ⟨"Northstar", 39.2731, -120.1186, some 6330, some "CA"⟩,
  ⟨"Kirkwood", 38.6836, -120.0661, some 7800, some "CA"⟩,
  ⟨"Stowe", 44.5303, -72.7817, some 1340, some "VT"⟩,
  ⟨"Killington", 43.6042, -72.8203, some 1290, some "VT"⟩,
  ⟨"Sugarbush", 44.1358, -72.9028, some 1535, some "VT"⟩,
  ⟨"Loon Mountain", 44.0364, -71.6208, some 950, some "NH"⟩,
  ⟨"Bretton Woods", 44.2625, -71.4431, some 1500, some "NH"⟩,
  ⟨"Whiteface", 44.3656, -73.9025, some 1220, some "NY"⟩,
  ⟨"Hunter", 42.2042, -74.2172, some 1600, some "NY"⟩,
  ⟨"Bellayre", 42.127342, -74.518576, some 2025, some "NY"⟩,
  ⟨"Windham", 42.3600, -74.2900, some 1500, some "NY"⟩,
  ⟨"Plattekill Mountain", 42.2700, -74.6400, some 3500, some "NY"⟩,
  ⟨"Holiday Mountain", 41.6300, -74.6200, some 1050, some "NY"⟩,
  ⟨"Catamount", 42.1691, -73.4770, some 2000, some "NY"⟩,
  ⟨"Butternut", 42.1867, -73.3203, some 1800, some "MA"⟩,
  ⟨"Camelback", 41.0423, -75.3521, some 2133, some "PA"⟩,
  ⟨"Big Sky", 45.2847, -111.4008, some 7500, some "MT"⟩,
  ⟨"Sun Valley", 43.6972, -114.3517, some 5750, some "ID"⟩,
  ⟨"Crystal Mountain", 46.9358, -121.4747, some 4400, some "WA"⟩,
  ⟨"Stevens Pass", 47.7453, -121.0892, some 4061, some "WA"⟩]

/-- `ResortFinder.find_nearby_resorts` (`resorts.py` lines 133–156),
generic in the per-resort distance value `d resort` (the source computes
it as `resort.distance_from(latitude, longitude)` via the external
`geopy.distance.geodesic`; any origin induces such a function).  Collect
`(resort, distance)` pairs within the radius, stable-sort ascending by
distance, and drop the distances. -/
def find_nearby_resorts {α : Type} [LinearOrder α] (d : SkiResort → α)
    (radius_miles : α) : List SkiResort :=
  let nearby_resorts := SKI_RESORTS.filterMap (fun resort =>
    let distance := d resort
    if distance ≤ radius_miles then some (resort, distance) else none)
  (nearby_resorts.mergeSort (fun x y => decide (x.2 ≤ y.2))).map Prod.fst

/-- Unfolding `find_nearby_resorts` to a stable sort of the filtered
catalog. -/
theorem find_nearby_resorts_eq {α : Type} [LinearOrder α]
    (d : SkiResort → α) (radius : α) :
    find_nearby_resorts d radius =
      (SKI_RESORTS.filter (fun r => decide (d r ≤ radius))).mergeSort
        (fun a b => decide (d a ≤ d b)) := by
  unfold find_nearby_resorts
  dsimp only []
  have h1 : ∀ l : List SkiResort,
      (l.filterMap (fun resort =>
        let distance := d resort
        if distance ≤ radius then some (resort, distance) else none)) =
      (l.filter (fun r => decide (d r ≤ radius))).map (fun r => (r, d r)) := by
    intro l
    induction l with
    | nil => rfl
    | cons x xs ih =>
      by_cases hx : d x ≤ radius
      · simp [List.filterMap_cons, List.filter_cons, hx, ih]
      · simp [List.filterMap_cons, List.filter_cons, hx, ih]
  rw [h1]
  have h2 : ∀ a ∈ (SKI_RESORTS.filter (fun r => decide (d r ≤ radius))).map
        (fun r => (r, d r)),
      ∀ b ∈ (SKI_RESORTS.filter (fun r => decide (d r ≤ radius))).map
        (fun r => (r, d r)),
      decide (a.2 ≤ b.2) = decide (d a.1 ≤ d b.1) := by
    intro a ha b hb
    obtain ⟨x, -, rfl⟩ := List.mem_map.mp ha
    obtain ⟨y, -, rfl⟩ := List.mem_map.mp hb
    rfl
  have h3 : (((SKI_RESORTS.filter (fun r => decide (d r ≤ radius))).map
          (fun r => (r, d r))).mergeSort
            (fun x y => decide (x.2 ≤ y.2))).map Prod.fst =
      (((SKI_RESORTS.filter (fun r => decide (d r ≤ radius))).map
          (fun r => (r, d r))).map Prod.fst).mergeSort
        (fun a b => decide (d a ≤ d b)) :=
    List.map_mergeSort h2
  rw [h3, List.map_map]
  have h4 : (Prod.fst ∘ fun r : SkiResort => (r, d r)) = id := rfl
  rw [h4, List.map_id]

/-! ## C4: radius search over the catalog -/

/-- C4: for every distance assignment `d` (in particular the geodesic
distance from any origin coordinate) and every radius,
`find_nearby_resorts` returns exactly the catalog resorts with
`d r ≤ radius` (inclusive boundary: a permutation of the catalog filter,
so none within the bound is excluded and none outside it is included),
sorted ascending by distance; equal-distance ties retain catalog
declaration order (stated via tie-class filters); and when nothing
matches the result is the empty list. -/
theorem find_nearby_resorts_spec {α : Type} [LinearOrder α]
    (d : SkiResort → α) (radius : α) :
    (find_nearby_resorts d radius).Perm
        (SKI_RESORTS.filter (fun r => decide (d r ≤ radius))) ∧
      (find_nearby_resorts d radius).Pairwise (fun a b => d a ≤ d b) ∧
      (∀ q : α, (find_nearby_resorts d radius).filter
            (fun r => decide (d r = q)) =
          SKI_RESORTS.filter
            (fun r => decide (d r ≤ radius) && decide (d r = q))) ∧
      ((∀ r ∈ SKI_RESORTS, ¬ d r ≤ radius) → find_nearby_resorts d radius = []) := by
  have htrans : ∀ a b c : SkiResort,
      decide (d a ≤ d b) → decide (d b ≤ d c) → decide (d a ≤ d c) := by
    intro a b c hab hbc
    exact decide_eq_true ((of_decide_eq_true hab).trans (of_decide_eq_true hbc))
  have htotal : ∀ a b : SkiResort, decide (d a ≤ d b) || decide (d b ≤ d a) := by
    intro a b
    rcases le_total (d a) (d b) with h | h <;> simp [h]
  rw [find_nearby_resorts_eq]
  refine ⟨List.mergeSort_perm _ _, ?_, ?_, ?_⟩
  · exact (List.sorted_mergeSort htrans htotal _).imp (fun h => of_decide_eq_true h)
  · intro q
    rw [filter_mergeSort_of_ties _ htrans htotal]
    · rw [List.filter_filter]
      apply List.filter_congr
      intro r hr
      exact Bool.and_comm _ _
    · intro a b ha hb
      have ha' : d a = q := of_decide_eq_true ha
      have hb' : d b = q := of_decide_eq_true hb
      exact decide_eq_true (le_of_eq (ha'.trans hb'.symm))
  · intro hnone
    have hnil : SKI_RESORTS.filter (fun r => decide (d r ≤ radius)) = [] := by
      rw [List.filter_eq_nil_iff]
      intro r hr
      simpa using hnone r hr
    rw [hnil, List.mergeSort_nil]

/-- C4 witness: with the constant distance `1` and radius `0` nothing
matches and the search returns the empty list, not an error; the
tie-class equation is applied at the concrete tie value `0`. -/
theorem find_nearby_resorts_spec_witness :
    find_nearby_resorts (fun _ : SkiResort => (1 : ℚ)) 0 = [] ∧
      (find_nearby_resorts (fun _ : SkiResort => (1 : ℚ)) 0).filter
          (fun _ => decide ((1 : ℚ) = 0)) =
        SKI_RESORTS.filter
          (fun _ => decide ((1 : ℚ) ≤ 0) && decide ((1 : ℚ) = 0)) :=
  ⟨(find_nearby_resorts_spec (fun _ => (1 : ℚ)) 0).2.2.2
      (fun r _ => by norm_num),
   (find_nearby_resorts_spec (fun _ => (1 : ℚ)) 0).2.2.1 0⟩

/-! ## Manual resort configuration (`resorts.py` lines 158–223) -/

/-- A manual resort spec from `config.yaml`: a Python dict with the keys
the source consults, each embedded as an optional field (`none` = key
absent). -/
structure ResortSpec where
  name : Option String := none
  latitude : Option ℚ := none
  longitude : Option ℚ := none
  elevation : Option Int := none
  state : Option String := none
deriving DecidableEq, Repr

/-- The two `ValueError`s raised by `get_resorts_from_config`:
an unknown resort name (the message lists every valid catalog name), or
a spec with neither a name-only nor a full custom shape. -/
inductive ConfigError where
  | unknownResort (name : String) (available : List String)
  | invalidSpec (spec : ResortSpec)
deriving DecidableEq, Repr

/-- Python's `str.lower`, character by character (ASCII-compatible, as
are all catalog names). -/
def pylower (s : String) : String :=
  ⟨s.data.map Char.toLower⟩

/-- `ResortFinder._find_resort_by_name` (`resorts.py` lines 209–223):
first catalog resort whose lowercased name equals the lowercased query,
`none` otherwise. -/
def find_resort_by_name (name : String) : Option SkiResort :=
  SKI_RESORTS.find? (fun resort => pylower resort.name == pylower name)

/-- One iteration of the `get_resorts_from_config` loop (`resorts.py`
lines 177–205): name-only specs (key `name` present, key `latitude`
absent) are catalog lookups; specs with `name`, `latitude` and
`longitude` build a custom resort; everything else is invalid. -/
def resolve_resort_spec (spec : ResortSpec) : Except ConfigError SkiResort :=
  match spec.name, spec.latitude, spec.longitude with
  | some n, none, _ =>
    match find_resort_by_name n with
    | some resort => .ok resort
    | none => .error (.unknownResort n (SKI_RESORTS.map (·.name)))
  | some n, some lat, some lon =>
    .ok { name := n, latitude := lat, longitude := lon,
          elevation := spec.elevation, state := spec.state }
  | _, _, _ => .error (.invalidSpec spec)

/-- `ResortFinder.get_resorts_from_config` (`resorts.py` lines 158–207):
resolve the specs left to right, stopping at the first failing spec
(the Python loop raises there), otherwise collect the resorts in input
order. -/
def get_resorts_from_config : List ResortSpec → Except ConfigError (List SkiResort)
  | [] => .ok []
  | spec :: rest =>
    match resolve_resort_spec spec with
    | .error e => .error e
    | .ok resort =>
      match get_resorts_from_config rest with
      | .error e => .error e
      | .ok resorts => .ok (resort :: resorts)

/-- A spec that is neither name-only nor full-custom resolves to the
invalid-spec error (the final `else` branch of the loop body). -/
theorem resolve_resort_spec_invalid (spec : ResortSpec)
    (h1 : ¬ (spec.name.isSome = true ∧ spec.latitude = none))
    (h2 : ¬ (spec.name.isSome = true ∧ spec.latitude.isSome = true ∧
        spec.longitude.isSome = true)) :
    resolve_resort_spec spec = .error (.invalidSpec spec) := by
  cases hn : spec.name with
  | none => simp [resolve_resort_spec, hn]
  | some n =>
    cases hlat : spec.latitude with
    | none => exact absurd ⟨by simp [hn], hlat⟩ h1
    | some lat =>
      cases hlon : spec.longitude with
      | none => simp [resolve_resort_spec, hn, hlat, hlon]
      | some lon =>
        exact absurd ⟨by simp [hn], by simp [hlat], by simp [hlon]⟩ h2

/-- Successful resolution of the whole config list means each output
resort is, in order, the successful resolution of the corresponding
input spec. -/
theorem get_resorts_from_config_forall2 (specs : List ResortSpec)
    (resorts : List SkiResort)
    (h : get_resorts_from_config specs = .ok resorts) :
    List.Forall₂ (fun spec resort => resolve_resort_spec spec = .ok resort)
      specs resorts := by
  induction specs generalizing resorts with
  | nil =>
    unfold get_resorts_from_config at h
    injection h with h2
    subst h2
    exact List.Forall₂.nil
  | cons spec rest ih =>
    unfold get_resorts_from_config at h
    cases hr : resolve_resort_spec spec with
    | error e => rw [hr] at h; exact Except.noConfusion h
    | ok r =>
      rw [hr] at h
      cases hrest : get_resorts_from_config rest with
      | error e => rw [hrest] at h; exact Except.noConfusion h
      | ok rs =>
        rw [hrest] at h
        injection h with h2
        subst h2
        exact List.Forall₂.cons hr (ih rs hrest)

/-! ## C6: name-only lookups -/

/-- C6: resort-name lookup is case-insensitive (names with equal
lowercasings resolve identically), the output of
`get_resorts_from_config` lists the resolved resorts in input-spec
order, and a name-only spec whose name has no catalog match fails with
the unknown-resort error carrying every valid catalog name. -/
theorem get_resorts_from_config_name_lookup :
    (∀ s v : String, pylower s = pylower v →
        find_resort_by_name s = find_resort_by_name v) ∧
      (∀ specs resorts, get_resorts_from_config specs = .ok resorts →
        List.Forall₂ (fun spec resort => resolve_resort_spec spec = .ok resort)
          specs resorts) ∧
      ∀ (spec : ResortSpec) (n : String), spec.name = some n →
        spec.latitude = none → find_resort_by_name n = none →
        resolve_resort_spec spec =
          .error (.unknownResort n (SKI_RESORTS.map (·.name))) := by
  refine ⟨?_, get_resorts_from_config_forall2, ?_⟩
  · intro s v h
    unfold find_resort_by_name
    rw [h]
  · intro spec n hn hlat hfind
    simp [resolve_resort_spec, hn, hlat, hfind]

def vailR : SkiResort := ⟨"Vail", 39.6403, -106.3742, some 8120, some "CO"⟩

/-- C6 witness: `"VAIL"` and `"vail"` look up identically; the single
spec `{name: "vail"}` resolves, in order, to the catalog's Vail; the
spec `{name: "Nonexistent"}` fails with the unknown-resort error listing
the whole catalog. -/
theorem get_resorts_from_config_name_lookup_witness :
    find_resort_by_name "VAIL" = find_resort_by_name "vail" ∧
      List.Forall₂
        (fun spec resort => resolve_resort_spec spec = .ok resort)
        [({ name := some "vail" } : ResortSpec)] [vailR] ∧
      resolve_resort_spec { name := some "Nonexistent" } =
        .error (.unknownResort "Nonexistent" (SKI_RESORTS.map (·.name))) :=
  ⟨get_resorts_from_config_name_lookup.1 "VAIL" "vail" (by decide),
   get_resorts_from_config_name_lookup.2.1
     [({ name := some "vail" } : ResortSpec)] [vailR] (by rfl),
   get_resorts_from_config_name_lookup.2.2
     { name := some "Nonexistent" } "Nonexistent" rfl rfl (by rfl)⟩

/-! ## C7: invalid spec shapes -/

/-- C7: every spec that has neither a valid name-only shape (`name`
present, `latitude` absent) nor a full custom shape (`name`, `latitude`
and `longitude` all present) resolves to the invalid-spec error — e.g. a
spec with `latitude` but no `longitude` — and a config list containing
such a spec never yields a successful (even partial) output. -/
theorem get_resorts_from_config_invalid :
    (∀ spec : ResortSpec,
        ¬ (spec.name.isSome = true ∧ spec.latitude = none) →
        ¬ (spec.name.isSome = true ∧ spec.latitude.isSome = true ∧
            spec.longitude.isSome = true) →
        resolve_resort_spec spec = .error (.invalidSpec spec)) ∧
      ∀ (specs : List ResortSpec) (spec : ResortSpec)
          (resorts : List SkiResort), spec ∈ specs →
        ¬ (spec.name.isSome = true ∧ spec.latitude = none) →
        ¬ (spec.name.isSome = true ∧ spec.latitude.isSome = true ∧
            spec.longitude.isSome = true) →
        get_resorts_from_config specs ≠ .ok resorts := by
  refine ⟨resolve_resort_spec_invalid, ?_⟩
  intro specs
  induction specs with
  | nil =>
    intro spec resorts hmem
    exact absurd hmem (List.not_mem_nil spec)
  | cons head rest ih =>
    intro spec resorts hmem h1 h2 hok
    rcases List.mem_cons.mp hmem with rfl | hmem2
    · unfold get_resorts_from_config at hok
      rw [resolve_resort_spec_invalid spec h1 h2] at hok
      exact Except.noConfusion hok
    · unfold get_resorts_from_config at hok
      cases hr : resolve_resort_spec head with
      | error e => rw [hr] at hok; exact Except.noConfusion hok
      | ok r =>
        rw [hr] at hok
        cases hrest : get_resorts_from_config rest with
        | error e => rw [hrest] at hok; exact Except.noConfusion hok
        | ok rs => exact ih spec rs hmem2 h1 h2 hrest

/-- C7 witness: the claim's own example — a spec with `latitude` but no
`longitude` (and no other valid shape) — is rejected, alone and inside a
one-element config list. -/
theorem get_resorts_from_config_invalid_witness :
    resolve_resort_spec { name := some "My Hill", latitude := some 42 } =
        .error (.invalidSpec { name := some "My Hill", latitude := some 42 }) ∧
      ∀ resorts : List SkiResort,
        get_resorts_from_config
            [({ name := some "My Hill", latitude := some 42 } : ResortSpec)] ≠
          .ok resorts :=
  ⟨get_resorts_from_config_invalid.1
      { name := some "My Hill", latitude := some 42 }
      (by simp) (by simp),
   fun resorts =>
    get_resorts_from_config_invalid.2
      [({ name := some "My Hill", latitude := some 42 } : ResortSpec)]
      { name := some "My Hill", latitude := some 42 } resorts
      (List.mem_singleton.mpr rfl) (by simp) (by simp)⟩

/-! ## C10: a spec with `name` and no `latitude` is always a lookup -/

/-- C10: any spec with key `name` present and key `latitude` absent is
classified as a name-only catalog lookup no matter what other keys it
carries (in particular a stray `longitude`): it either resolves to a
catalog resort or fails with the unknown-resort error; it is never
treated as a custom resort and never rejected as invalid. -/
theorem resolve_resort_spec_name_only (spec : ResortSpec) (n : String)
    (hn : spec.name = some n) (hlat : spec.latitude = none) :
    (∃ r, find_resort_by_name n = some r ∧ r ∈ SKI_RESORTS ∧
        resolve_resort_spec spec = .ok r) ∨
      (find_resort_by_name n = none ∧
        resolve_resort_spec spec =
          .error (.unknownResort n (SKI_RESORTS.map (·.name)))) := by
  cases hf : find_resort_by_name n with
  | some r =>
    left
    refine ⟨r, rfl, List.mem_of_find?_eq_some hf, ?_⟩
    simp [resolve_resort_spec, hn, hlat, hf]
  | none =>
    right
    refine ⟨rfl, ?_⟩
    simp [resolve_resort_spec, hn, hlat, hf]

/-- C10 witness: the spec `{name: "Vail", longitude: -74}` (longitude
present, latitude absent) is resolved by catalog lookup to Vail, not
treated as custom and not rejected. -/
theorem resolve_resort_spec_name_only_witness :
    (∃ r, find_resort_by_name "Vail" = some r ∧ r ∈ SKI_RESORTS ∧
        resolve_resort_spec
            { name := some "Vail", longitude := some (-74) } = .ok r) ∨
      (find_resort_by_name "Vail" = none ∧
        resolve_resort_spec { name := some "Vail", longitude := some (-74) } =
          .error (.unknownResort "Vail" (SKI_RESORTS.map (·.name)))) :=
  resolve_resort_spec_name_only
    { name := some "Vail", longitude := some (-74) } "Vail" rfl rfl

/-! ## C9: geodesic distance (spec-modelled) -/

/-- Modelled from the spec: `GeoMath.distance` (§4.1).  The source's
`SkiResort.distance_from` (`resorts.py` lines 22–24) delegates to the
external `geopy.distance.geodesic(...).miles`, which is not part of this
repository; the spec describes it as a geodesic (great-circle)
Earth-distance in miles, symmetric and zero on equal points.  Embedded
as the haversine great-circle formula over `ℝ`. -/
noncomputable def greatCircleDistanceMiles (lat1 lon1 lat2 lon2 : ℝ) : ℝ :=
  let earthRadiusMiles : ℝ := 3958.8
  let rad : ℝ := Real.pi / 180
  let dLat := (lat2 - lat1) * rad / 2
  let dLon := (lon2 - lon1) * rad / 2
  let h := Real.sin dLat ^ 2 +
    Real.cos (lat1 * rad) * Real.cos (lat2 * rad) * Real.sin dLon ^ 2
  2 * earthRadiusMiles * Real.arcsin (Real.sqrt h)

/-- `SkiResort.distance_from` (`resorts.py` lines 22–24): distance in
miles from the resort's coordinates to the given point. -/
noncomputable def SkiResort.distance_from (resort : SkiResort)
    (lat lon : ℚ) : ℝ :=
  greatCircleDistanceMiles resort.latitude resort.longitude lat lon

/-- The modelled Earth distance is symmetric in its two coordinate
pairs. -/
theorem greatCircleDistanceMiles_symm (lat1 lon1 lat2 lon2 : ℝ) :
    greatCircleDistanceMiles lat1 lon1 lat2 lon2 =
      greatCircleDistanceMiles lat2 lon2 lat1 lon1 := by
  unfold greatCircleDistanceMiles
  dsimp only []
  apply congrArg (fun x => 2 * (3958.8 : ℝ) * Real.arcsin (Real.sqrt x))
  have e1 : (lat1 - lat2) * (Real.pi / 180) / 2 =
      -((lat2 - lat1) * (Real.pi / 180) / 2) := by ring
  have e2 : (lon1 - lon2) * (Real.pi / 180) / 2 =
      -((lon2 - lon1) * (Real.pi / 180) / 2) := by ring
  rw [e1, e2, Real.sin_neg, Real.sin_neg, neg_sq, neg_sq]
  ring

/-- The modelled Earth distance of a point to itself is `0`. -/
theorem greatCircleDistanceMiles_self (lat lon : ℝ) :
    greatCircleDistanceMiles lat lon lat lon = 0 := by
  unfold greatCircleDistanceMiles
  dsimp only []
  norm_num [Real.sin_zero, Real.sqrt_zero, Real.arcsin_zero]

/-- C9: the resort-to-point distance is symmetric — measuring from a
resort at `a` to the coordinates of a resort at `b` equals measuring
from `b` to the coordinates of `a` — and is zero from any resort to its
own coordinates. -/
theorem distance_from_symm_zero :
    (∀ r₁ r₂ : SkiResort,
        r₁.distance_from r₂.latitude r₂.longitude =
          r₂.distance_from r₁.latitude r₁.longitude) ∧
      ∀ r : SkiResort, r.distance_from r.latitude r.longitude = 0 :=
  ⟨fun r₁ r₂ => greatCircleDistanceMiles_symm r₁.latitude r₁.longitude
      r₂.latitude r₂.longitude,
   fun r => greatCircleDistanceMiles_self r.latitude r.longitude⟩
